import Mathlib

/- Verification of the xnt FIX adapter (src/xnt/fix_api.py and
   src/xnt/models/fix_api_models.py) together with the FIX session engine
   that spec.md specifies for it.  Python classes are embedded as Lean
   structures and methods as pure functions; the mutable collector and
   status state is passed explicitly, Python exceptions are modelled with
   Except/Option, and logging/warning side effects are dropped. -/

/-- Single SOH delimiter byte used by the FIX tag=value wire format. -/
def SOHc : Char := '\x01'

/-- Association-list lookup, first binding wins.  Models a Python dict
lookup and getattr over the dynamically set attributes of the Collector. -/
def lookupA {κ β : Type} [DecidableEq κ] : List (κ × β) → κ → Option β
  | [], _ => none
  | (k, v) :: rest, n => if k = n then some v else lookupA rest n

/-- Association-list update: overwrite the existing binding or append a new
one.  Models Python dict assignment and setattr. -/
def updA {κ β : Type} [DecidableEq κ] : List (κ × β) → κ → β → List (κ × β)
  | [], k, v => [(k, v)]
  | (a, b) :: rest, k, v => if a = k then (k, v) :: rest else (a, b) :: updA rest k v

/- ===================== Wire Codec (claim C4) =====================
   Modelled from the spec: the Wire Codec of spec.md section 4.1 is not
   present under src/ (the repository delegates framing, checksum and
   BodyLength to the external quickfix engine), so encode/decode are
   built from the spec text. -/

/-- Character for a decimal digit d < 10. -/
def digitChar (d : Nat) : Char := Char.ofNat (48 + d)

/-- Fuel-driven most-significant-first decimal digit expansion; structural
on the fuel so that the kernel can evaluate it. -/
def toDigitsAux : Nat → Nat → List Char
  | 0, _ => []
  | fuel + 1, n =>
    if n < 10 then [digitChar n]
    else toDigitsAux fuel (n / 10) ++ [digitChar (n % 10)]

/-- Decimal digit string of a natural number, most significant first. -/
def toDigits (n : Nat) : List Char := toDigitsAux (n + 1) n

/-- Numeric value of a digit string (most significant first). -/
def digitsVal (s : List Char) : Nat :=
  s.foldl (fun a c => 10 * a + (c.toNat - 48)) 0

/-- Parse a non-empty all-digit string into a natural number. -/
def parseNat (s : List Char) : Option Nat :=
  if s.isEmpty then none
  else if s.all (fun c => c.isDigit) then some (digitsVal s) else none

/-- Three-digit zero-padded decimal rendering, as required for the
CheckSum(10) field value (spec section 4.1). -/
def pad3 (n : Nat) : List Char :=
  [digitChar (n / 100), digitChar (n / 10 % 10), digitChar (n % 10)]

/-- Modelled from the spec: checksum is the mod-256 sum of all preceding
bytes (spec section 4.1); characters stand for bytes here. -/
def checksum (s : List Char) : Nat := (s.map Char.toNat).sum % 256

/-- Modelled from the spec: a wire Message is an ordered list of
(tag, value) pairs plus the BeginString header (spec section 3); BodyLength
and CheckSum are derived at encode time and are not part of the message. -/
structure WireMsg where
  beginString : List Char
  fields : List (Nat × List Char)
  deriving DecidableEq

/-- Validity for round-tripping: no field value and no BeginString may
contain the SOH delimiter byte. -/
def ValidMsg (m : WireMsg) : Prop :=
  SOHc ∉ m.beginString ∧ ∀ f ∈ m.fields, SOHc ∉ f.2

instance (m : WireMsg) : Decidable (ValidMsg m) := by
  unfold ValidMsg
  infer_instance

/-- Tag=value chars of one body field, without the trailing SOH. -/
def encodeFieldCore (f : Nat × List Char) : List Char :=
  toDigits f.1 ++ '=' :: f.2

/-- One encoded body field: tag=value followed by SOH. -/
def encodeField (f : Nat × List Char) : List Char :=
  encodeFieldCore f ++ [SOHc]

/-- All body bytes of a message: the SOH-terminated fields, joined. -/
def bodyChars (fs : List (Nat × List Char)) : List Char :=
  (fs.map encodeField).flatten

/-- Everything that precedes the checksum field: BeginString(8), then
BodyLength(9) computed over the body, then the body itself. -/
def preChars (m : WireMsg) : List Char :=
  ('8' :: '=' :: m.beginString) ++
    SOHc :: (('9' :: '=' :: toDigits (bodyChars m.fields).length) ++
      SOHc :: bodyChars m.fields)

/-- Modelled from the spec: encode produces SOH-delimited tag=value pairs
with BodyLength(9) over the body and CheckSum(10) as the mod-256 sum of all
preceding bytes formatted as a 3-digit decimal (spec section 4.1). -/
def encode (m : WireMsg) : List Char :=
  preChars m ++ '1' :: '0' :: '=' :: (pad3 (checksum (preChars m)) ++ [SOHc])

/-- Split a byte stream into its SOH-terminated tokens; fails when the final
token is not SOH-terminated (unparsable SOH structure, spec section 4.1). -/
def tokenize : List Char → Option (List (List Char))
  | [] => some []
  | c :: rest =>
    if c = SOHc then (tokenize rest).map (fun ts => [] :: ts)
    else
      match tokenize rest with
      | some (t :: ts) => some ((c :: t) :: ts)
      | _ => none

/-- Split a token at its first '=' into tag part and value part. -/
def splitEq : List Char → Option (List Char × List Char)
  | [] => none
  | c :: rest =>
    if c = '=' then some ([], rest)
    else (splitEq rest).map (fun p => (c :: p.1, p.2))

/-- Parse one tag=value token. -/
def parseField (t : List Char) : Option (Nat × List Char) :=
  match splitEq t with
  | some (tg, v) =>
    match parseNat tg with
    | some n => some (n, v)
    | none => none
  | none => none

/-- Parse every body token; fail if any one fails. -/
def parseFields : List (List Char) → Option (List (Nat × List Char))
  | [] => some []
  | t :: ts =>
    match parseField t, parseFields ts with
    | some f, some fs => some (f :: fs)
    | _, _ => none

/-- Byte count covered by BodyLength for a list of body tokens: each token
plus its SOH terminator. -/
def tokensLen (ts : List (List Char)) : Nat :=
  (ts.map (fun t => t.length + 1)).sum

/-- Modelled from the spec: decode parses SOH-delimited tag=value bytes and
fails (none, standing for MalformedMessage) when the checksum mismatches,
the BodyLength mismatches the actual body size, or the SOH structure is
unparsable (spec section 4.1). -/
def decode (s : List Char) : Option WireMsg :=
  if 7 ≤ s.length then
    match s.drop (s.length - 7) with
    | [c1, c2, c3, d1, d2, d3, c4] =>
      if c1 = '1' ∧ c2 = '0' ∧ c3 = '=' ∧ c4 = SOHc ∧
          d1.isDigit ∧ d2.isDigit ∧ d3.isDigit ∧
          digitsVal [d1, d2, d3] = checksum (s.take (s.length - 7)) then
        match tokenize (s.take (s.length - 7)) with
        | some (tok8 :: tok9 :: bodyToks) =>
          match tok8, tok9 with
          | c8 :: e8 :: bs, c9 :: e9 :: lenDigits =>
            if c8 = '8' ∧ e8 = '=' ∧ c9 = '9' ∧ e9 = '=' then
              match parseNat lenDigits with
              | some len =>
                if len = tokensLen bodyToks then
                  match parseFields bodyToks with
                  | some fs => some ⟨bs, fs⟩
                  | none => none
                else none
              | none => none
            else none
          | _, _ => none
        | _ => none
      else none
    | _ => none
  else none

/- ===================== quickfix message model =====================
   fx.Message carries header and body field maps (tag -> value) plus the
   repeating groups added with addGroup; setField overwrites an existing
   tag or appends a new one.  Field values are kept as the strings quickfix
   exchanges; numeric and datetime rendering is out of scope. -/

/-- Model of a quickfix fx.Message. -/
structure Msg where
  header : List (Nat × String)
  body : List (Nat × String)
  groups : List (List (Nat × String))
  deriving DecidableEq

/-- The empty fx.Message(). -/
def Msg.empty : Msg := ⟨[], [], []⟩

/-- message.getHeader().getField(tag); none models FieldNotFound. -/
def Msg.getHeaderField (m : Msg) (t : Nat) : Option String := lookupA m.header t

/-- message.getField(tag); none models FieldNotFound. -/
def Msg.getField (m : Msg) (t : Nat) : Option String := lookupA m.body t

/-- message.setField(tag, value). -/
def Msg.setField (m : Msg) (t : Nat) (v : String) : Msg :=
  { m with body := updA m.body t v }

/-- message.getHeader().setField(tag, value). -/
def Msg.setHeaderField (m : Msg) (t : Nat) (v : String) : Msg :=
  { m with header := updA m.header t v }

/-- message.addGroup(group). -/
def Msg.addGroup (m : Msg) (g : List (Nat × String)) : Msg :=
  { m with groups := m.groups ++ [g] }

/-- Python exception kinds that can escape the embedded methods. -/
inductive PyErr
  | fieldNotFound (tag : Nat)
  | configError
  | typeError
  | attrError
  | valueError
  deriving DecidableEq

/-- Per-session settings dictionary, fx.SessionSettings.get(session_id);
getString raises ConfigError (modelled by none) on a missing key. -/
structure SessionSettings where
  entries : List (String × String)
  deriving DecidableEq

/-- settings.getString(key). -/
def SessionSettings.getString (s : SessionSettings) (k : String) : Option String :=
  lookupA s.entries k

/-- FixAdapter._set_header (fix_api.py lines 135-137): BeginString FIX.4.4
into tag 8 and the message type into tag 35 of the header. -/
def set_header (m : Msg) (msg_type : String) : Msg :=
  (m.setHeaderField 8 "FIX.4.4").setHeaderField 35 msg_type

/-- FixAdapter._set_instr (fix_api.py lines 139-142): Symbol(55),
SecurityID(48) and SecurityIDSource(22)="111". -/
def set_instr (m : Msg) (symbol : String) : Msg :=
  ((m.setField 55 symbol).setField 48 symbol).setField 22 "111"

/-- FixAdapter.toAdmin (fix_api.py lines 163-181): on an outbound Logon
("A") the session password is injected into tag 554 (fx.Password) from the
session settings, and CancelOnDisconnect into tag 10001 when configured
(its ConfigError is swallowed by the try/except).  Every other message type
only gets logged and is returned unchanged, but on a connected session the
Heartbeat ("0") debug log f-string reads MesSeqNum with
message.getHeader().getField(34) (line 176), which raises FieldNotFound
when that header tag is absent.  A missing MsgType raises FieldNotFound
and a missing Password raises ConfigError. -/
def toAdmin (settings : List (String × SessionSettings)) (connected : Bool)
    (session_id : String) (m : Msg) : Except PyErr Msg :=
  match m.getHeaderField 35 with
  | none => .error (.fieldNotFound 35)
  | some msg_type =>
    if msg_type = "A" then
      match lookupA settings session_id with
      | none => .error .configError
      | some ss =>
        match ss.getString "Password" with
        | none => .error .configError
        | some pwd =>
          let m1 := m.setField 554 pwd
          match ss.getString "CancelOnDisconnect" with
          | some cod => .ok (m1.setField 10001 cod)
          | none => .ok m1
    else if connected then
      if msg_type = "0" then
        match m.getHeaderField 34 with
        | none => .error (.fieldNotFound 34)
        | some _ => .ok m
      else .ok m
    else .ok m

/- ===================== Collector model =====================
   fix_api.py lines 25-111.  The dynamically named attributes that
   Collector.register creates with setattr are modelled by the chans
   association list; the fixed attributes _ord_map and rejects are separate
   record fields (hasattr/getattr in the source range over every attribute,
   but no claim exercises a collision between a request id and a fixed
   attribute or method name). -/

/-- The fields of an inbound ExecutionReport (35=8) or OrderCancelReject
(35=9) that the collector logic of fromApp uses: ClOrdID(11), OrderID(37)
and OrdStatus(39).  The remaining per-message-type field mapping is out of
scope (spec section 1); extraction fails (as the Python constructors do)
when a required tag is missing or the OrdStatus value is not a member of
the OrderStatus enum. -/
structure Report where
  ClOrdID : String
  OrderID : String
  OrdStatus : String
  deriving DecidableEq

/-- The OrderStatus enum values of fix_api_models.py lines 79-87. -/
def orderStatusVals : List String := ["0", "1", "2", "4", "6", "8", "A"]

/-- Extraction of the claim-relevant ExecutionReport/OrderCancelReject
fields. -/
def Report.extract (m : Msg) : Except PyErr Report :=
  match m.getField 11 with
  | none => .error (.fieldNotFound 11)
  | some c =>
    match m.getField 37 with
    | none => .error (.fieldNotFound 37)
    | some o =>
      match m.getField 39 with
      | none => .error (.fieldNotFound 39)
      | some s =>
        if orderStatusVals.contains s then .ok ⟨c, o, s⟩ else .error .valueError

/-- OrderSeq (fix_api.py lines 25-46): the per-order response channel.
status starts as OrderStatus.NEW ("0") and exante_id as None; the queue is
unbounded. -/
structure OrderSeq where
  seq : List String
  queue : List Report
  status : String
  exante_id : Option String
  deriving DecidableEq

/-- OrderSeq() constructor. -/
def OrderSeq.init : OrderSeq := ⟨[], [], "0", none⟩

/-- OrderSeq.put (lines 38-40): appends item.ClOrdID to seq and the item to
the queue. -/
def OrderSeq.put (q : OrderSeq) (item : Report) : OrderSeq :=
  { q with seq := q.seq ++ [item.ClOrdID], queue := q.queue ++ [item] }

/-- MDSub (fix_api.py lines 49-60): a Queue whose put drops the first
(oldest) entry once maxsize is reached and then inserts, never blocking. -/
structure MDSub (α : Type) where
  maxsize : Nat
  items : List α
  deriving DecidableEq

/-- MDSub.put (lines 50-60): with a positive maxsize and the queue already
at or above it, the head is dropped before the new item is appended. -/
def MDSub.put {α : Type} (q : MDSub α) (item : α) : MDSub α :=
  { q with items :=
      (if 0 < q.maxsize ∧ q.maxsize ≤ q.items.length then q.items.tail else q.items)
        ++ [item] }

/-- Header (fix_api_models.py lines 196-201): SenderCompID(49),
TargetCompID(56), SendingTime(52) and MesSeqNum(34) as int; int() on a
non-numeric string raises ValueError. -/
structure HeaderJ where
  SenderCompID : String
  TargetCompID : String
  SendingTime : String
  MesSeqNum : Nat
  deriving DecidableEq

/-- Header(message.getHeader()) extraction. -/
def HeaderJ.extract (m : Msg) : Except PyErr HeaderJ :=
  match lookupA m.header 49 with
  | none => .error (.fieldNotFound 49)
  | some sc =>
    match lookupA m.header 56 with
    | none => .error (.fieldNotFound 56)
    | some tc =>
      match lookupA m.header 52 with
      | none => .error (.fieldNotFound 52)
      | some tm =>
        match lookupA m.header 34 with
        | none => .error (.fieldNotFound 34)
        | some sq =>
          match parseNat sq.data with
          | some n => .ok ⟨sc, tc, tm, n⟩
          | none => .error .valueError

/-- Reject (fix_api_models.py lines 215-222): RefSeqNum(45) required,
RefTagID(371) optional int, RefMsgType(372), SessionRejectReason(373) and
Text(58) optional. -/
structure RejectJ where
  Header : HeaderJ
  RefSeqNum : String
  RefTagID : Option Nat
  RefMsgType : Option String
  SessionRejectReason : Option String
  Text : Option String
  deriving DecidableEq

/-- Reject(message) extraction. -/
def RejectJ.extract (m : Msg) : Except PyErr RejectJ :=
  match HeaderJ.extract m with
  | .error e => .error e
  | .ok h =>
    match m.getField 45 with
    | none => .error (.fieldNotFound 45)
    | some rsn =>
      match m.getField 371 with
      | some s =>
        match parseNat s.data with
        | some n =>
          .ok ⟨h, rsn, some n, m.getField 372, m.getField 373, m.getField 58⟩
        | none => .error .valueError
      | none => .ok ⟨h, rsn, none, m.getField 372, m.getField 373, m.getField 58⟩

/-- BusinessReject (fix_api_models.py lines 225-231): RefSeqNum(45) as int,
RefMsgType(372) and BusinessRejectReason(380) required, Text(58)
optional. -/
structure BusinessRejectJ where
  Header : HeaderJ
  RefSeqNum : Nat
  RefMsgType : String
  BusinessRejectReason : String
  Text : Option String
  deriving DecidableEq

/-- BusinessReject(message) extraction. -/
def BusinessRejectJ.extract (m : Msg) : Except PyErr BusinessRejectJ :=
  match HeaderJ.extract m with
  | .error e => .error e
  | .ok h =>
    match m.getField 45 with
    | none => .error (.fieldNotFound 45)
    | some rsn =>
      match parseNat rsn.data with
      | none => .error .valueError
      | some n =>
        match m.getField 372 with
        | none => .error (.fieldNotFound 372)
        | some rmt =>
          match m.getField 380 with
          | none => .error (.fieldNotFound 380)
          | some brr => .ok ⟨h, n, rmt, brr, m.getField 58⟩

/-- Payload put on a collector channel by fromApp.  For message kinds other
than ExecutionReport/OrderCancelReject the payload keeps the raw message:
their per-message-type field mapping is out of scope (spec section 1).
strayReport covers an ExecutionReport/OrderCancelReject Report put on a
non-order channel when the report's OrderID collides with that channel's
request id (MDSub.put and Queue.put accept any item). -/
inductive Payload
  | mdSnapshot (m : Msg)
  | mdReject (m : Msg)
  | accSum (m : Msg)
  | accSumRej (m : Msg)
  | secList (m : Msg)
  | tradeAck (m : Msg)
  | trade (m : Msg)
  | tradeMargin (m : Msg)
  | tradeMarginRej (m : Msg)
  | strayReport (t : Report)
  deriving DecidableEq

/-- An entry of the collector.rejects queue: a session-level Reject, a
BusinessReject, or — when an id collides with the fixed attribute name
"rejects" — a stray Report or raw payload put there by the generic
collector.get(id).put(...) statements. -/
inductive RejEntry
  | rej (r : RejectJ)
  | brej (r : BusinessRejectJ)
  | stray (t : Report)
  | strayPayload (p : Payload)
  deriving DecidableEq

/-- A dynamically registered collector attribute: an MDSub, an OrderSeq or
a plain unbounded Queue. -/
inductive Chan
  | md (q : MDSub Payload)
  | order (s : OrderSeq)
  | plain (q : List Payload)
  deriving DecidableEq

/-- The DataType enum (fix_api_models.py lines 140-146). -/
inductive DataType
  | MD | Order | AccSum | SecList | TradesList | MarginList
  deriving DecidableEq

/-- The Collector state (fix_api.py lines 63-111). -/
structure Collector where
  md_queue_l : Nat
  ord_map : List (String × Option String)
  chans : List (String × Chan)
  rejects : List RejEntry
  deriving DecidableEq

/-- Collector(md_queue_lenght) constructor. -/
def collectorInit (md_queue_lenght : Nat) : Collector :=
  ⟨md_queue_lenght, [], [], []⟩

/-- Collector() built with the default md_queue_lenght of 20
(fix_api.py line 64). -/
def defaultCollector : Collector := collectorInit 20

/-- Collector.register (lines 69-75): MD gets an MDSub bounded by
md_queue_l, Order gets an OrderSeq, the remaining types get an unbounded
Queue. -/
def Collector.register (c : Collector) (name : String) (obj_type : DataType) : Collector :=
  match obj_type with
  | .MD => { c with chans := updA c.chans name (.md ⟨c.md_queue_l, []⟩) }
  | .Order => { c with chans := updA c.chans name (.order OrderSeq.init) }
  | _ => { c with chans := updA c.chans name (.plain []) }

/-- Python truthiness of an optional string (None and "" are falsy). -/
def truthyS : Option String → Bool
  | none => false
  | some s => s != ""

/-- Collector.bound_cl_ord_id (lines 77-79): the map entry is written when
the name is unmapped or the exchange id is truthy. -/
def Collector.bound_cl_ord_id (c : Collector) (name : String) (ex_ord_id : Option String) :
    Collector :=
  if lookupA c.ord_map name = none ∨ truthyS ex_ord_id then
    { c with ord_map := updA c.ord_map name ex_ord_id }
  else c

/-- Name resolution of Collector.get (lines 94-100): a name bound in
_ord_map is redirected to its exchange id.  A binding to None would make
getattr(self, None) raise TypeError; that is modelled as resolution
failure. -/
def Collector.resolveKey (c : Collector) (name : String) : Option String :=
  match lookupA c.ord_map name with
  | some (some ex) => some ex
  | some none => none
  | none => some name

/-- Double-underscore (dunder) name check on the characters. -/
def isDunderName (name : String) : Bool :=
  match name.data with
  | '_' :: '_' :: _ => true
  | _ => false

/-- The Collector's fixed attribute, method and property names:
the __init__ state (_md_queue_l, _ord_map, rejects), the methods and the
two properties. -/
def fixedAttrNames : List String :=
  ["_md_queue_l", "_ord_map", "rejects", "register", "bound_cl_ord_id", "deregister",
    "get", "has", "listall", "status"]

/-- What hasattr/getattr see on the Collector besides the dynamically
registered channels: the fixed names above plus the object dunders (any
double-underscore name). -/
def isFixedAttr (name : String) : Bool :=
  fixedAttrNames.any (fun a => decide (a = name)) || isDunderName name

/-- A value read off the collector by getattr: a dynamically registered
channel, or one of the fixed attributes (kept opaque: the rejects queue is
modelled in the Collector record, the rest are methods, properties or
plain data with no channel behaviour). -/
inductive CollAttr
  | chan (ch : Chan)
  | fixed (name : String)
  deriving DecidableEq

/-- Collector.get (lines 94-100): resolve through _ord_map, then getattr;
a dynamically set channel shadows nothing (setattr on a fixed name would
have replaced it), fixed attributes are returned as opaque references, and
none covers both the AttributeError that the source turns into None and
the TypeError of a None binding. -/
def Collector.get (c : Collector) (name : String) : Option CollAttr :=
  match c.resolveKey name with
  | none => none
  | some k =>
    match lookupA c.chans k with
    | some ch => some (.chan ch)
    | none => if isFixedAttr k then some (.fixed k) else none

/-- Collector.has (lines 102-103): hasattr over the dynamic channels and
the fixed attributes alike. -/
def Collector.has (c : Collector) (name : String) : Bool :=
  (lookupA c.chans name).isSome || isFixedAttr name

/-- Collector.deregister (lines 81-92): a mapped name removes every map
entry sharing its exchange id and deletes the attribute named by that id
(delattr on a None id would raise TypeError; nothing registers such ids
before calling deregister in the claims); an unmapped name not starting
with an underscore is deleted directly; AttributeError is swallowed. -/
def Collector.deregister (c : Collector) (name : String) : Collector :=
  match lookupA c.ord_map name with
  | some ex =>
    { c with
      ord_map := c.ord_map.filter (fun kv => kv.2 != ex),
      chans :=
        match ex with
        | some e => c.chans.filter (fun kv => kv.1 != e)
        | none => c.chans }
  | none =>
    if name.startsWith "_" then c
    else { c with chans := c.chans.filter (fun kv => kv.1 != name) }

/-- One collector.get(id).put(X(message)) statement of fromApp: read the
request id field, resolve it and put the payload.  MDSub.put and Queue.put
accept anything; OrderSeq.put reads item.ClOrdID and raises AttributeError
on a raw-message payload; a resolved fixed attribute named "rejects" is
the rejects Queue, whose put succeeds, while the other fixed attributes
(ints, dicts, bound methods, property results) have no put and raise
AttributeError, as does the None a failed get returns. -/
def Collector.putById (c : Collector) (tag : Nat) (m : Msg) (mk : Msg → Payload) :
    Except PyErr Collector :=
  match m.getField tag with
  | none => .error (.fieldNotFound tag)
  | some rid =>
    match c.resolveKey rid with
    | none => .error .typeError
    | some k =>
      match lookupA c.chans k with
      | some (.md q) => .ok { c with chans := updA c.chans k (.md (q.put (mk m))) }
      | some (.plain q) => .ok { c with chans := updA c.chans k (.plain (q ++ [mk m])) }
      | some (.order _) => .error .attrError
      | none =>
        if k = "rejects" then .ok { c with rejects := c.rejects ++ [.strayPayload (mk m)] }
        else .error .attrError

/-- The collector.get(t.OrderID).put(t) statement of the ExecutionReport /
OrderCancelReject branch.  An order channel records the report; MDSub.put
and Queue.put accept the report as an opaque item (strayReport); the fixed
attribute "rejects" is the rejects Queue and the report lands there; every
other fixed attribute has no put and raises AttributeError, as does the
None a failed get returns. -/
def Collector.putReport (c : Collector) (name : String) (t : Report) :
    Except PyErr Collector :=
  match c.resolveKey name with
  | none => .error .typeError
  | some k =>
    match lookupA c.chans k with
    | some (.order s) => .ok { c with chans := updA c.chans k (.order (s.put t)) }
    | some (.md q) => .ok { c with chans := updA c.chans k (.md (q.put (.strayReport t))) }
    | some (.plain q) => .ok { c with chans := updA c.chans k (.plain (q ++ [.strayReport t])) }
    | none =>
      if k = "rejects" then .ok { c with rejects := c.rejects ++ [.stray t] }
      else .error .attrError

/-- One attribute assignment collector.get(t.OrderID).status = ... or
.exante_id = ... of the ExecutionReport/OrderCancelReject branch.  An
order channel records the field; setattr on an MDSub, a plain Queue or the
rejects Queue instance succeeds but is not observable in this model;
setattr on the remaining fixed attributes (ints, dicts, bound methods,
property results) raises AttributeError, as it does on the None a failed
get returns. -/
def Collector.setOnResolved (c : Collector) (name : String) (f : OrderSeq → OrderSeq) :
    Except PyErr Collector :=
  match c.resolveKey name with
  | none => .error .typeError
  | some k =>
    match lookupA c.chans k with
    | some (.order s) => .ok { c with chans := updA c.chans k (.order (f s)) }
    | some (.md _) => .ok c
    | some (.plain _) => .ok c
    | none =>
      if k = "rejects" then .ok c
      else .error .attrError

/-- FixAdapter.fromApp (fix_api.py lines 199-241): inbound application
messages are dispatched on MsgType(35); session-level Reject("3") and
BusinessReject("j") are appended to collector.rejects; market data, account
summary, security list, trade capture and margin responses are put on the
channel registered for their request id; ExecutionReport("8") and
OrderCancelReject("9") bind the ClOrdID to the OrderID, register the order
channel when absent and update it.  Unknown types only warn and nothing at
all happens when the session is not logged on.  warnings.warn and logging
are dropped. -/
def fromApp (connected : Bool) (m : Msg) (c : Collector) : Except PyErr Collector :=
  if connected then
    match m.getHeaderField 35 with
    | none => .error (.fieldNotFound 35)
    | some msg_type =>
      if msg_type = "3" then
        match RejectJ.extract m with
        | .ok r => .ok { c with rejects := c.rejects ++ [.rej r] }
        | .error e => .error e
      else if msg_type = "j" then
        match BusinessRejectJ.extract m with
        | .ok r => .ok { c with rejects := c.rejects ++ [.brej r] }
        | .error e => .error e
      else if msg_type = "W" then c.putById 262 m .mdSnapshot
      else if msg_type = "Y" then c.putById 262 m .mdReject
      else if msg_type = "8" ∨ msg_type = "9" then
        match Report.extract m with
        | .error e => .error e
        | .ok t =>
          let c1 := c.bound_cl_ord_id t.ClOrdID (some t.OrderID)
          let c2 := if c1.has t.OrderID then c1 else c1.register t.OrderID .Order
          match c2.putReport t.OrderID t with
          | .error e => .error e
          | .ok c3 =>
            match c3.setOnResolved t.OrderID (fun s => { s with status := t.OrdStatus }) with
            | .error e => .error e
            | .ok c4 =>
              c4.setOnResolved t.OrderID (fun s => { s with exante_id := some t.OrderID })
      else if msg_type = "UASR" then c.putById 20020 m .accSum
      else if msg_type = "UASJ" then c.putById 20020 m .accSumRej
      else if msg_type = "y" then c.putById 320 m .secList
      else if msg_type = "AQ" then c.putById 568 m .tradeAck
      else if msg_type = "AE" then c.putById 568 m .trade
      else if msg_type = "UTMR" then c.putById 20050 m .tradeMargin
      else if msg_type = "UTMJ" then c.putById 20050 m .tradeMarginRej
      else .ok c
  else .ok c

/- ===================== Request methods =====================
   fix_api.py lines 128-133 and 277-471.  Every request method is guarded
   by _iscon and otherwise falls through to return None with no effect.
   uuid4().hex and datetime.now() are nondeterministic inputs and are
   passed as explicit arguments (gen_id, now); Decimal/price quantities and
   enum members are passed as their already-rendered FIX string values. -/

/-- FixAdapter._iscon (fix_api.py lines 128-133): the engine registry knows
the session and it reports isLoggedOn.  (A quickfix SessionID object is
always truthy, so the `if session_id` guard is dropped.) -/
def iscon (sessions : List (String × Bool)) (session_id : String) : Bool :=
  match lookupA sessions session_id with
  | some b => b
  | none => false

/-- The adapter-visible side effects of a request method: the collector and
the messages handed to fx.Session.sendToTarget. -/
structure AdapterSt where
  collector : Collector
  sent : List (String × Msg)
  deriving DecidableEq

/-- fx.Session.sendToTarget(msg, session_id). -/
def sendToTarget (st : AdapterSt) (m : Msg) (session_id : String) : AdapterSt :=
  { st with sent := st.sent ++ [(session_id, m)] }

/-- Python truthiness of an optional int (None and 0 are falsy). -/
def truthyN : Option Nat → Bool
  | none => false
  | some n => n != 0

/-- FixAdapter.md_req (fix_api.py lines 277-306): subscribe to or
unsubscribe from market data; a subscription registers an MD channel under
the request id, an unsubscription deregisters it. -/
def md_req (sessions : List (String × Bool)) (session_id : String) (symbol : String)
    (md_type : List String) (md_req_id : Option String) (sub : Bool) (md_depth : Nat)
    (gen_id : String) (st : AdapterSt) : Option String × AdapterSt :=
  if iscon sessions session_id then
    let msg := set_header Msg.empty "V"
    let msg := msg.addGroup [(55, symbol), (48, symbol), (22, "111")]
    let rid := if truthyS md_req_id then md_req_id.getD gen_id else gen_id
    let msgSt :=
      if sub then
        ((msg.setField 263 "1").setField 265 "0",
          { st with collector := st.collector.register rid .MD })
      else
        (msg.setField 263 "2",
          { st with collector := st.collector.deregister rid })
    let msg := (msgSt.1.setField 262 rid).setField 264 (toString md_depth)
    let msg := msg.setField 267 (toString md_type.length)
    let msg := md_type.foldl (fun mm e => mm.addGroup [(269, e)]) msg
    (some rid, sendToTarget msgSt.2 msg session_id)
  else (none, st)

/-- FixAdapter.new_order_req (fix_api.py lines 308-334): sends a
NewOrderSingle and binds the client order id in the collector. -/
def new_order_req (sessions : List (String × Bool)) (session_id : String) (symbol : String)
    (side : String) (duration : String) (quantity : String) (order_type : String)
    (price : Option String) (stop_price : Option String) (account : Option String)
    (cod : Bool) (client_order_id : Option String) (gen_id : String) (now : Nat)
    (st : AdapterSt) : Option String × AdapterSt :=
  if iscon sessions session_id then
    let msg := set_header Msg.empty "D"
    let msg := match account with | some a => msg.setField 1 a | none => msg
    let msg := set_instr msg symbol
    let cl := if truthyS client_order_id then client_order_id.getD gen_id else gen_id
    let msg := msg.setField 11 cl
    let msg := msg.setField 54 side
    let msg := msg.setField 60 (toString now)
    let msg := msg.setField 38 quantity
    let msg := msg.setField 40 order_type
    let msg :=
      if (order_type = "2" ∨ order_type = "4") ∧ truthyS price then
        msg.setField 44 (price.getD "")
      else msg
    let msg :=
      if (order_type = "3" ∨ order_type = "4") ∧ truthyS stop_price then
        msg.setField 99 (stop_price.getD "")
      else msg
    let msg := msg.setField 59 duration
    let msg := if cod then msg.setField 10001 "Y" else msg
    let st1 := sendToTarget st msg session_id
    (some cl, { st1 with collector := st1.collector.bound_cl_ord_id cl none })
  else (none, st)

/-- FixAdapter.cancel_req (fix_api.py lines 336-351). -/
def cancel_req (sessions : List (String × Bool)) (session_id : String)
    (orig_client_order_id : String) (symbol : String) (side : String) (quantity : String)
    (client_order_id : Option String) (gen_id : String) (now : Nat)
    (st : AdapterSt) : Option String × AdapterSt :=
  if iscon sessions session_id then
    let msg := set_header Msg.empty "F"
    let msg := set_instr msg symbol
    let msg := msg.setField 54 side
    let msg := msg.setField 60 (toString now)
    let msg := msg.setField 41 orig_client_order_id
    let msg := msg.setField 38 quantity
    let cl := if truthyS client_order_id then client_order_id.getD gen_id else gen_id
    let msg := msg.setField 11 cl
    let st1 := sendToTarget st msg session_id
    (some cl, { st1 with collector := st1.collector.bound_cl_ord_id cl none })
  else (none, st)

/-- FixAdapter.order_status_req (fix_api.py lines 353-361); the Python
method returns None on both paths. -/
def order_status_req (sessions : List (String × Bool)) (session_id : String)
    (client_order_id : String) (symbol : String) (side : String)
    (st : AdapterSt) : Option String × AdapterSt :=
  if iscon sessions session_id then
    let msg := set_header Msg.empty "H"
    let msg := set_instr msg symbol
    let msg := msg.setField 11 client_order_id
    let msg := msg.setField 54 side
    let st1 := sendToTarget st msg session_id
    (none, { st1 with collector := st1.collector.bound_cl_ord_id client_order_id none })
  else (none, st)

/-- FixAdapter.order_replace_req (fix_api.py lines 363-385): for a limit or
stop-limit replacement the source calls float(price) without a None guard
(line 380), so a missing price raises TypeError; likewise stop_price on
line 382. -/
def order_replace_req (sessions : List (String × Bool)) (session_id : String)
    (orig_client_order_id : String) (symbol : String) (side : String) (order_type : String)
    (quantity : String) (price : Option String) (stop_price : Option String)
    (client_order_id : Option String) (gen_id : String) (now : Nat)
    (st : AdapterSt) : Except PyErr (Option String × AdapterSt) :=
  if iscon sessions session_id then
    let msg := set_header Msg.empty "G"
    let msg := set_instr msg symbol
    let cl := if truthyS client_order_id then client_order_id.getD gen_id else gen_id
    let msg := msg.setField 11 cl
    let msg := msg.setField 41 orig_client_order_id
    let msg := msg.setField 54 side
    let msg := msg.setField 60 (toString now)
    let msg := msg.setField 38 quantity
    let msg := msg.setField 40 order_type
    let step1 : Except PyErr Msg :=
      if order_type = "2" ∨ order_type = "4" then
        match price with
        | some p => .ok (msg.setField 44 p)
        | none => .error .typeError
      else .ok msg
    match step1 with
    | .error e => .error e
    | .ok msg =>
      let step2 : Except PyErr Msg :=
        if order_type = "3" ∨ order_type = "4" then
          match stop_price with
          | some p => .ok (msg.setField 99 p)
          | none => .error .typeError
        else .ok msg
      match step2 with
      | .error e => .error e
      | .ok msg =>
        let st1 := sendToTarget st msg session_id
        .ok (some cl, { st1 with collector := st1.collector.bound_cl_ord_id cl none })
  else .ok (none, st)

/-- FixAdapter.account_summary_req (fix_api.py lines 387-401): gen_num
stands for int(datetime.now().timestamp()). -/
def account_summary_req (sessions : List (String × Bool)) (session_id : String)
    (account : Option String) (currency : Option String) (acc_sum_id : Option Nat)
    (gen_num : Nat) (st : AdapterSt) : Option String × AdapterSt :=
  if iscon sessions session_id then
    let msg := set_header Msg.empty "UASQ"
    let aid := if truthyN acc_sum_id then acc_sum_id.getD gen_num else gen_num
    let msg := msg.setField 20020 (toString aid)
    let msg := match account with | some a => msg.setField 1 a | none => msg
    let msg := match currency with | some cu => msg.setField 20023 cu | none => msg
    let st1 := sendToTarget st msg session_id
    (some (toString aid),
      { st1 with collector := st1.collector.register (toString aid) .AccSum })
  else (none, st)

/-- FixAdapter.order_mass_status_req (fix_api.py lines 403-412): sends the
request and registers nothing in the collector. -/
def order_mass_status_req (sessions : List (String × Bool)) (session_id : String)
    (mosr_id : Option String) (gen_id : String)
    (st : AdapterSt) : Option String × AdapterSt :=
  if iscon sessions session_id then
    let msg := set_header Msg.empty "AF"
    let rid := if truthyS mosr_id then mosr_id.getD gen_id else gen_id
    let msg := msg.setField 584 rid
    let msg := msg.setField 585 "7"
    (some rid, sendToTarget st msg session_id)
  else (none, st)

/-- FixAdapter.security_list_req (fix_api.py lines 414-432). -/
def security_list_req (sessions : List (String × Bool)) (session_id : String)
    (sym_substring : Option String) (cfi_code : Option String)
    (sec_list_req_id : Option String) (gen_id : String)
    (st : AdapterSt) : Option String × AdapterSt :=
  if iscon sessions session_id then
    let msg := set_header Msg.empty "x"
    let rid := if truthyS sec_list_req_id then sec_list_req_id.getD gen_id else gen_id
    let msg := msg.setField 320 rid
    let msg :=
      if truthyS sym_substring then
        (msg.setField 559 "0").setField 55 (sym_substring.getD "")
      else
        match cfi_code with
        | some cfi => (msg.setField 559 "1").setField 461 cfi
        | none => msg.setField 559 "4"
    let st1 := sendToTarget st msg session_id
    (some rid, { st1 with collector := st1.collector.register rid .SecList })
  else (none, st)

/-- FixAdapter.trades_capture_req (fix_api.py lines 434-453): the dates are
passed already rendered with strftime. -/
def trades_capture_req (sessions : List (String × Bool)) (session_id : String)
    (start_date : String) (stop_date : Option String) (trade_req_id : Option String)
    (gen_id : String) (st : AdapterSt) : Option String × AdapterSt :=
  if iscon sessions session_id then
    let msg := set_header Msg.empty "AD"
    let rid := if truthyS trade_req_id then trade_req_id.getD gen_id else gen_id
    let msg := msg.setField 568 rid
    let msg := msg.setField 569 "0"
    let msg := msg.setField 580 (if stop_date.isSome then "2" else "1")
    let msg := msg.addGroup [(75, start_date)]
    let msg := match stop_date with | some d => msg.addGroup [(75, d)] | none => msg
    let st1 := sendToTarget st msg session_id
    (some rid, { st1 with collector := st1.collector.register rid .TradesList })
  else (none, st)

/-- FixAdapter.trades_margin_req (fix_api.py lines 455-471). -/
def trades_margin_req (sessions : List (String × Bool)) (session_id : String)
    (account : String) (symbol : String) (currency : String) (quantity : String)
    (price : Option String) (trade_margin_id : Option String) (gen_id : String)
    (st : AdapterSt) : Option String × AdapterSt :=
  if iscon sessions session_id then
    let msg := set_header Msg.empty "UTMQ"
    let msg := set_instr msg symbol
    let rid := if truthyS trade_margin_id then trade_margin_id.getD gen_id else gen_id
    let msg := msg.setField 20050 rid
    let msg := msg.setField 1 account
    let msg := msg.setField 15 currency
    let msg := msg.setField 53 quantity
    let msg := if truthyS price then msg.setField 44 (price.getD "") else msg
    let st1 := sendToTarget st msg session_id
    (some rid, { st1 with collector := st1.collector.register rid .MarginList })
  else (none, st)

/- ===================== Session status tracking (claim C3) ============= -/

/-- Status (fix_api_models.py lines 157-177): wraps a threading.Event; the
Event is modelled by its set/unset flag. -/
structure Status where
  stat : Bool
  deriving DecidableEq

/-- Status.login (line 162-163): sets the Event. -/
def Status.login (s : Status) : Status := { s with stat := true }

/-- Status.logout (lines 165-166): clears the Event. -/
def Status.logout (s : Status) : Status := { s with stat := false }

/-- Status.logened property (lines 168-170). -/
def Status.logened (s : Status) : Bool := s.stat

/-- FixAdapter.onCreate (fix_api.py lines 144-147): a fresh Status, with
the Event initially unset, is stored under session_id.toString(). -/
def onCreate (status : List (String × Status)) (session_id : String) :
    List (String × Status) :=
  updA status session_id ⟨false⟩

/-- FixAdapter.onLogon (fix_api.py lines 149-154): calls login() on the
tracked status.  (A missing key would raise KeyError; onCreate always
precedes in the quickfix callback order.) -/
def onLogon (status : List (String × Status)) (session_id : String) :
    List (String × Status) :=
  match lookupA status session_id with
  | some s => updA status session_id s.login
  | none => status

/-- FixAdapter.onLogout (fix_api.py lines 156-161): the body evaluates
`self.status[session_id.toString()].logout` WITHOUT calling it — the bound
method is read and discarded, unlike the `login()` call of onLogon — so the
tracked status map is returned unchanged. -/
def onLogout (status : List (String × Status)) (session_id : String) :
    List (String × Status) :=
  match lookupA status session_id with
  | some _ => status
  | none => status

/- ============ Session State Machine sequencing (claim C1) ============ -/

/-- An inbound message as seen by the sequencing check of the Session State
Machine: its MsgSeqNum and PossDup flag. -/
structure InMsg where
  seqNum : Nat
  possDup : Bool
  deriving DecidableEq

/-- Session states of spec section 4.3. -/
inductive SessState
  | disconnected
  | logonPending
  | active
  | awaitingResend
  | logoutPending
  deriving DecidableEq

/-- A session of the engine: state, next expected inbound sequence number
and the buffer of messages held back while a gap is being resent. -/
structure Session where
  state : SessState
  expected : Nat
  buffer : List InMsg
  deriving DecidableEq

/-- Observable engine actions of the inbound sequencing check. -/
inductive SessAction
  | process (m : InMsg)
  | sendResendRequest (b e : Nat)
  | ignore
  | fatalLogout
  deriving DecidableEq

/-- Modelled from the spec: the Session State Machine is absent from src/
(the repository delegates it to the external quickfix engine), so this is
the Active-state inbound sequence check of spec section 4.3: an equal
sequence number is processed and the expectation incremented; a higher one
enters AwaitingResend, buffers the message and sends
ResendRequest(expected, seqNum-1); a lower one marked PossDup is silently
ignored; any other lower one is a fatal out-of-sequence error that forces
logout (immediate transition to Disconnected with the store preserved,
spec section 4.3 last bullet). -/
def activeInbound (s : Session) (m : InMsg) : Session × List SessAction :=
  if m.seqNum = s.expected then
    ({ s with expected := s.expected + 1 }, [.process m])
  else if s.expected < m.seqNum then
    ({ s with state := .awaitingResend, buffer := s.buffer ++ [m] },
      [.sendResendRequest s.expected (m.seqNum - 1)])
  else if m.possDup then
    (s, [.ignore])
  else
    ({ s with state := .disconnected }, [.fatalLogout])

/- ===================== Theorems ===================== -/

theorem lookupA_updA_self {κ β : Type} [DecidableEq κ] (l : List (κ × β)) (k : κ) (v : β) :
    lookupA (updA l k v) k = some v := by
  induction l with
  | nil => simp [updA, lookupA]
  | cons p rest ih =>
    obtain ⟨a, b⟩ := p
    by_cases h : a = k
    · simp [updA, h, lookupA]
    · simp [updA, h, lookupA, ih]

theorem lookupA_updA_ne {κ β : Type} [DecidableEq κ] (l : List (κ × β)) (k n : κ) (v : β)
    (hne : k ≠ n) : lookupA (updA l k v) n = lookupA l n := by
  induction l with
  | nil => simp [updA, lookupA, hne]
  | cons p rest ih =>
    obtain ⟨a, b⟩ := p
    by_cases h : a = k
    · subst h
      simp [updA, lookupA, hne]
    · simp [updA, h, lookupA, ih]

/-- Claim C3 (code_bug evidence): after onCreate, onLogon and then onLogout
for session "S", the tracked per-session status still reports logged on.
FixAdapter.onLogout evaluates the bound method `logout` without calling it
(fix_api.py line 161, contrast the `login()` call on line 154), so the
Event is never cleared and the claimed transition of the tracked status to
not-logged-on does not happen. -/
theorem c3_onLogout_leaves_logened :
    (lookupA (onLogout (onLogon (onCreate [] "S") "S") "S") "S").map Status.logened
      = some true := by
  decide

/-- Claim C5: for every outbound admin message whose MsgType header is
Logon ("A") and whose session settings hold a password, toAdmin injects
that password into tag 554 (fx.Password) before the message goes out. -/
theorem c5_toAdmin_injects_password
    (settings : List (String × SessionSettings)) (connected : Bool) (sid : String)
    (m : Msg) (ss : SessionSettings) (pwd : String) (m2 : Msg)
    (hA : m.getHeaderField 35 = some "A")
    (hs : lookupA settings sid = some ss)
    (hp : ss.getString "Password" = some pwd)
    (hok : toAdmin settings connected sid m = .ok m2) :
    m2.getField 554 = some pwd := by
  unfold toAdmin at hok
  rw [hA] at hok
  simp only [if_pos rfl, hs, hp] at hok
  rcases hcod : ss.getString "CancelOnDisconnect" with _ | cod
  · rw [hcod] at hok
    cases hok
    simp [Msg.getField, Msg.setField, lookupA_updA_self]
  · rw [hcod] at hok
    cases hok
    simp [Msg.getField, Msg.setField, lookupA_updA_ne _ _ _ _ (by decide : (10001 : Nat) ≠ 554),
      lookupA_updA_self]

/-- Concrete Logon message for the C5 witness. -/
def c5msg : Msg := ⟨[(35, "A")], [], []⟩

/-- toAdmin output on c5msg for the C5 witness. -/
def c5out : Msg := ⟨[(35, "A")], [(554, "pw")], []⟩

theorem c5_witness :
    (c5msg.getHeaderField 35 = some "A" ∧
      lookupA [("S", SessionSettings.mk [("Password", "pw")])] "S"
        = some (SessionSettings.mk [("Password", "pw")]) ∧
      (SessionSettings.mk [("Password", "pw")]).getString "Password" = some "pw" ∧
      toAdmin [("S", SessionSettings.mk [("Password", "pw")])] true "S" c5msg = .ok c5out) ∧
    c5out.getField 554 = some "pw" :=
  ⟨⟨by decide, by decide, by decide, by rfl⟩,
    c5_toAdmin_injects_password [("S", SessionSettings.mk [("Password", "pw")])] true "S"
      c5msg (SessionSettings.mk [("Password", "pw")]) "pw" c5out
      (by decide) (by decide) (by decide) (by rfl)⟩

/-- Claim C7: for every outbound admin message whose MsgType is not Logon
("A"), toAdmin only logs and returns the message with no field modified.
The hypothesis on MsgSeqNum(34) mirrors the source's connected-Heartbeat
debug log, whose f-string reads getHeader().getField(34) (fix_api.py line
176) and raises FieldNotFound when that tag is absent; on every path,
raising or not, no field of the message is modified. -/
theorem c7_toAdmin_non_logon_unchanged
    (settings : List (String × SessionSettings)) (connected : Bool) (sid : String)
    (m : Msg) (mt : String)
    (h35 : m.getHeaderField 35 = some mt) (hne : mt ≠ "A")
    (h34 : connected = true → mt = "0" → ∃ sq, m.getHeaderField 34 = some sq) :
    toAdmin settings connected sid m = .ok m := by
  unfold toAdmin
  rw [h35]
  by_cases hc : connected = true
  · by_cases h0 : mt = "0"
    · obtain ⟨sq, hsq⟩ := h34 hc h0
      simp [hne, hc, h0, hsq]
    · simp [hne, hc, h0]
  · have hcf : connected = false := by
      cases connected
      · rfl
      · exact absurd rfl hc
    simp [hne, hcf]

/-- Concrete Heartbeat message for the C7 witness: MsgSeqNum(34) present,
exercising the connected-Heartbeat log path. -/
def c7msg : Msg := ⟨[(35, "0"), (34, "12")], [], []⟩

theorem c7_witness :
    (c7msg.getHeaderField 35 = some "0" ∧ ("0" : String) ≠ "A" ∧
      c7msg.getHeaderField 34 = some "12") ∧
    toAdmin [] true "S" c7msg = .ok c7msg :=
  ⟨⟨by decide, by decide, by decide⟩,
    c7_toAdmin_non_logon_unchanged [] true "S" c7msg "0" (by decide) (by decide)
      (fun _ _ => ⟨"12", by decide⟩)⟩

/-- Claim C8: an MDSub channel with a positive bound never exceeds it: put
keeps the length invariant, drops the oldest (head) entry exactly when the
channel is full before appending the new item, appends directly otherwise,
and is a total function (the Python override neither blocks nor raises
Full).  The Collector registers MD channels bounded by its md_queue_l,
which defaults to 20. -/
theorem c8_mdsub_bounded {α : Type} (q : MDSub α) (x : α)
    (hpos : 0 < q.maxsize) (hle : q.items.length ≤ q.maxsize) :
    (q.put x).items.length ≤ q.maxsize ∧
    (q.items.length = q.maxsize → (q.put x).items = q.items.tail ++ [x]) ∧
    (q.items.length < q.maxsize → (q.put x).items = q.items ++ [x]) ∧
    defaultCollector.md_queue_l = 20 ∧
    (∀ (c : Collector) (n : String),
      lookupA (c.register n .MD).chans n = some (.md ⟨c.md_queue_l, []⟩)) := by
  refine ⟨?_, ?_, ?_, rfl, ?_⟩
  · by_cases hfull : q.maxsize ≤ q.items.length
    · have hlen : q.items.length = q.maxsize := Nat.le_antisymm hle hfull
      simp [MDSub.put, hpos, hfull, List.length_tail]
      omega
    · simp [MDSub.put, hfull]
      omega
  · intro hlen
    simp [MDSub.put, hpos, hlen]
  · intro hlt
    have hfull : ¬ q.maxsize ≤ q.items.length := by omega
    simp [MDSub.put, hfull]
  · intro c n
    simp [Collector.register, lookupA_updA_self]

/-- Concrete bounded channel for the C8 witness. -/
def c8q : MDSub Nat := ⟨2, [5, 6]⟩

theorem c8_witness :
    (0 < c8q.maxsize ∧ c8q.items.length ≤ c8q.maxsize) ∧
    ((c8q.put 7).items.length ≤ c8q.maxsize ∧
      (c8q.items.length = c8q.maxsize → (c8q.put 7).items = c8q.items.tail ++ [7]) ∧
      (c8q.items.length < c8q.maxsize → (c8q.put 7).items = c8q.items ++ [7]) ∧
      defaultCollector.md_queue_l = 20 ∧
      (∀ (c : Collector) (n : String),
        lookupA (c.register n .MD).chans n = some (.md ⟨c.md_queue_l, []⟩))) :=
  ⟨⟨by decide, by decide⟩, c8_mdsub_bounded c8q 7 (by decide) (by decide)⟩

/-- Claim C10: every request-sending method invoked on a session that is
not logged on returns none and has no effect: no message is handed to
sendToTarget and the adapter state — collector channels, order id map and
rejects included — is left exactly as it was. -/
theorem c10_requests_noop_when_not_logged_on
    (sessions : List (String × Bool)) (sid : String) (st : AdapterSt)
    (hcon : iscon sessions sid = false) :
    (∀ symbol md_type md_req_id sub md_depth gen_id,
      md_req sessions sid symbol md_type md_req_id sub md_depth gen_id st = (none, st)) ∧
    (∀ symbol side duration qty otype price stopp acct cod cl gen_id now,
      new_order_req sessions sid symbol side duration qty otype price stopp acct cod cl
        gen_id now st = (none, st)) ∧
    (∀ ocl symbol side qty cl gen_id now,
      cancel_req sessions sid ocl symbol side qty cl gen_id now st = (none, st)) ∧
    (∀ cl symbol side,
      order_status_req sessions sid cl symbol side st = (none, st)) ∧
    (∀ ocl symbol side otype qty price stopp cl gen_id now,
      order_replace_req sessions sid ocl symbol side otype qty price stopp cl gen_id now st
        = .ok (none, st)) ∧
    (∀ acct currency aid gen_num,
      account_summary_req sessions sid acct currency aid gen_num st = (none, st)) ∧
    (∀ mosr_id gen_id,
      order_mass_status_req sessions sid mosr_id gen_id st = (none, st)) ∧
    (∀ sym cfi rid gen_id,
      security_list_req sessions sid sym cfi rid gen_id st = (none, st)) ∧
    (∀ start stop rid gen_id,
      trades_capture_req sessions sid start stop rid gen_id st = (none, st)) ∧
    (∀ acct symbol currency qty price rid gen_id,
      trades_margin_req sessions sid acct symbol currency qty price rid gen_id st
        = (none, st)) := by
  refine ⟨?_, ?_, ?_, ?_, ?_, ?_, ?_, ?_, ?_, ?_⟩ <;> intros <;>
    simp only [md_req, new_order_req, cancel_req, order_status_req, order_replace_req,
      account_summary_req, order_mass_status_req, security_list_req, trades_capture_req,
      trades_margin_req, hcon, Bool.false_eq_true, if_false]

/-- Empty adapter state for the C10 and C2 witnesses. -/
def st0 : AdapterSt := ⟨defaultCollector, []⟩

theorem c10_witness :
    iscon [] "S" = false ∧
    md_req [] "S" "AAPL.NASDAQ" ["0"] none true 1 "g" st0 = (none, st0) ∧
    new_order_req [] "S" "AAPL.NASDAQ" "1" "0" "100" "1" none none none false none "g" 0 st0
      = (none, st0) ∧
    cancel_req [] "S" "o1" "AAPL.NASDAQ" "1" "100" none "g" 0 st0 = (none, st0) ∧
    order_status_req [] "S" "o1" "AAPL.NASDAQ" "1" st0 = (none, st0) ∧
    order_replace_req [] "S" "o1" "AAPL.NASDAQ" "1" "1" "100" none none none "g" 0 st0
      = .ok (none, st0) ∧
    account_summary_req [] "S" none none none 0 st0 = (none, st0) ∧
    order_mass_status_req [] "S" none "g" st0 = (none, st0) ∧
    security_list_req [] "S" none none none "g" st0 = (none, st0) ∧
    trades_capture_req [] "S" "20200101" none none "g" st0 = (none, st0) ∧
    trades_margin_req [] "S" "acc" "AAPL.NASDAQ" "USD" "1" none none "g" st0 = (none, st0) := by
  have h := c10_requests_noop_when_not_logged_on [] "S" st0 (by decide)
  exact ⟨by decide, h.1 _ _ _ _ _ _, h.2.1 _ _ _ _ _ _ _ _ _ _ _ _,
    h.2.2.1 _ _ _ _ _ _ _, h.2.2.2.1 _ _ _, h.2.2.2.2.1 _ _ _ _ _ _ _ _ _ _,
    h.2.2.2.2.2.1 _ _ _ _, h.2.2.2.2.2.2.1 _ _, h.2.2.2.2.2.2.2.1 _ _ _ _,
    h.2.2.2.2.2.2.2.2.1 _ _ _ _, h.2.2.2.2.2.2.2.2.2 _ _ _ _ _ _ _⟩

/-- Claim C2 (counterexample): with session "S" present in the engine
registry but not logged on, new_order_req returns none, hands nothing to
sendToTarget and leaves the adapter state untouched — the call silently
does nothing, and no NotConnected error value is returned to the caller
(none of the request methods has an error channel at all), contradicting
the claim that such sends fail synchronously with a NotConnected error
"rather than silently doing nothing". -/
theorem c2_counterexample :
    new_order_req [("S", false)] "S" "AAPL.NASDAQ" "1" "0" "100" "1" none none none false
      none "g" 0 st0 = (none, st0) ∧ st0.sent = [] := by
  constructor
  · rfl
  · rfl

/-- Claim C2 (amended): attempting to send an outbound request — order,
market-data, account or other — on a session that is not logged on fails
silently and synchronously: the method returns none to the caller, nothing
is sent and nothing is queued. -/
theorem c2_amended_send_gated_silently
    (sessions : List (String × Bool)) (sid : String) (st : AdapterSt)
    (hcon : iscon sessions sid = false) :
    (∀ symbol side duration qty otype price stopp acct cod cl gen_id now,
      new_order_req sessions sid symbol side duration qty otype price stopp acct cod cl
        gen_id now st = (none, st)) ∧
    (∀ symbol md_type md_req_id sub md_depth gen_id,
      md_req sessions sid symbol md_type md_req_id sub md_depth gen_id st = (none, st)) ∧
    (∀ acct currency aid gen_num,
      account_summary_req sessions sid acct currency aid gen_num st = (none, st)) ∧
    (∀ mosr_id gen_id,
      order_mass_status_req sessions sid mosr_id gen_id st = (none, st)) := by
  refine ⟨?_, ?_, ?_, ?_⟩ <;> intros <;>
    simp only [new_order_req, md_req, account_summary_req, order_mass_status_req, hcon,
      Bool.false_eq_true, if_false]

theorem c2_witness :
    iscon [("S", false)] "S" = false ∧
    new_order_req [("S", false)] "S" "AAPL.NASDAQ" "1" "0" "100" "1" none none none false
      none "g" 0 st0 = (none, st0) ∧
    md_req [("S", false)] "S" "AAPL.NASDAQ" ["0"] none true 1 "g" st0 = (none, st0) ∧
    account_summary_req [("S", false)] "S" none none none 0 st0 = (none, st0) ∧
    order_mass_status_req [("S", false)] "S" none "g" st0 = (none, st0) := by
  have h := c2_amended_send_gated_silently [("S", false)] "S" st0 (by decide)
  exact ⟨by decide, h.1 _ _ _ _ _ _ _ _ _ _ _ _, h.2.1 _ _ _ _ _ _, h.2.2.1 _ _ _ _,
    h.2.2.2 _ _⟩

/-- Claim C1 (counterexample): in the Active state with expected inbound
sequence number 5, a message with MsgSeqNum 3 marked PossDup is silently
ignored by the Session State Machine modelled from spec section 4.3 — no
fatal error, no logout — refuting the unqualified "a message whose
MsgSeqNum is lower than expected is fatal (duplicate/error)". -/
theorem c1_counterexample :
    activeInbound ⟨.active, 5, []⟩ ⟨3, true⟩ = (⟨.active, 5, []⟩, [.ignore]) ∧
    SessAction.fatalLogout ∉ (activeInbound ⟨.active, 5, []⟩ ⟨3, true⟩).2 := by
  constructor
  · rfl
  · decide

/-- Claim C1 (amended): in the Active state inbound messages are processed
strictly in sequence-number order: an equal MsgSeqNum is processed and the
expectation advanced; a higher MsgSeqNum triggers exactly a
ResendRequest(expected, seqNum-1), is buffered and is not processed; a
lower MsgSeqNum is fatal (forced logout, nothing processed) unless the
message is marked PossDup, in which case it is silently ignored. -/
theorem c1_amended_strict_sequencing (s : Session) (m : InMsg) :
    (m.seqNum = s.expected →
      activeInbound s m = ({ s with expected := s.expected + 1 }, [.process m])) ∧
    (s.expected < m.seqNum →
      activeInbound s m =
        ({ s with state := .awaitingResend, buffer := s.buffer ++ [m] },
          [.sendResendRequest s.expected (m.seqNum - 1)]) ∧
      SessAction.process m ∉ (activeInbound s m).2) ∧
    (m.seqNum < s.expected → m.possDup = true → activeInbound s m = (s, [.ignore])) ∧
    (m.seqNum < s.expected → m.possDup = false →
      activeInbound s m = ({ s with state := .disconnected }, [.fatalLogout]) ∧
      SessAction.process m ∉ (activeInbound s m).2) := by
  refine ⟨?_, ?_, ?_, ?_⟩
  · intro he
    simp [activeInbound, he]
  · intro hgt
    have hne : ¬ m.seqNum = s.expected := by omega
    simp [activeInbound, hne, hgt]
  · intro hlt hdup
    have hne : ¬ m.seqNum = s.expected := by omega
    have hngt : ¬ s.expected < m.seqNum := by omega
    simp [activeInbound, hne, hngt, hdup]
  · intro hlt hdup
    have hne : ¬ m.seqNum = s.expected := by omega
    have hngt : ¬ s.expected < m.seqNum := by omega
    simp [activeInbound, hne, hngt, hdup]

theorem c1_witness :
    ((5 : Nat) < 7 ∧
      activeInbound ⟨.active, 5, []⟩ ⟨7, false⟩ =
        (⟨.awaitingResend, 5, [⟨7, false⟩]⟩, [.sendResendRequest 5 6]) ∧
      SessAction.process ⟨7, false⟩ ∉ (activeInbound ⟨.active, 5, []⟩ ⟨7, false⟩).2) ∧
    ((2 : Nat) < 5 ∧
      activeInbound ⟨.active, 5, []⟩ ⟨2, false⟩ =
        (⟨.disconnected, 5, []⟩, [.fatalLogout]) ∧
      SessAction.process ⟨2, false⟩ ∉ (activeInbound ⟨.active, 5, []⟩ ⟨2, false⟩).2) := by
  have h1 := (c1_amended_strict_sequencing ⟨.active, 5, []⟩ ⟨7, false⟩).2.1 (by decide)
  have h2 := (c1_amended_strict_sequencing ⟨.active, 5, []⟩ ⟨2, false⟩).2.2.2 (by decide) rfl
  exact ⟨⟨by decide, h1.1, h1.2⟩, ⟨by decide, h2.1, h2.2⟩⟩

/-- Claim C6: with the session logged on, an inbound session-level
Reject ("3") or BusinessReject ("j") whose field extraction succeeds is
never thrown across the application callback interface: fromApp returns
normally (.ok, no exception), the only state change being the reject
enqueued on the collector's rejects queue. -/
theorem c6_rejects_enqueued_not_thrown (m : Msg) (c : Collector) :
    (m.getHeaderField 35 = some "3" → ∀ r, RejectJ.extract m = .ok r →
      fromApp true m c = .ok { c with rejects := c.rejects ++ [.rej r] }) ∧
    (m.getHeaderField 35 = some "j" → ∀ r, BusinessRejectJ.extract m = .ok r →
      fromApp true m c = .ok { c with rejects := c.rejects ++ [.brej r] }) := by
  constructor
  · intro h35 r hr
    simp [fromApp, h35, hr]
  · intro h35 r hr
    simp [fromApp, h35, hr]

/-- Concrete session-level Reject message for the C6 witness. -/
def c6msg : Msg := ⟨[(35, "3"), (49, "CP"), (56, "ME"), (52, "t1"), (34, "2")], [(45, "1")], []⟩

/-- Extracted form of c6msg. -/
def c6rej : RejectJ := ⟨⟨"CP", "ME", "t1", 2⟩, "1", none, none, none, none⟩

theorem c6_witness :
    (c6msg.getHeaderField 35 = some "3" ∧ RejectJ.extract c6msg = .ok c6rej) ∧
    fromApp true c6msg defaultCollector
      = .ok { defaultCollector with rejects := [.rej c6rej] } :=
  ⟨⟨by decide, by rfl⟩,
    (c6_rejects_enqueued_not_thrown c6msg defaultCollector).1 (by decide) c6rej (by rfl)⟩

/-- First inbound ExecutionReport for the C9 counterexample: ClOrdID "X",
exchange OrderID "Y". -/
def c9m1 : Msg := ⟨[(35, "8")], [(11, "X"), (37, "Y"), (39, "0")], []⟩

/-- Second inbound ExecutionReport: ClOrdID "C2" with exchange OrderID "X"
colliding with the previously bound client order id "X". -/
def c9m2 : Msg := ⟨[(35, "8")], [(11, "C2"), (37, "X"), (39, "2")], []⟩

/-- Collector after processing c9m1 from the default collector. -/
def c9c1 : Collector :=
  ⟨20, [("X", some "Y")],
    [("Y", .order ⟨["X"], [⟨"X", "Y", "0"⟩], "0", some "Y"⟩)], []⟩

/-- Collector after then processing c9m2. -/
def c9c2 : Collector :=
  ⟨20, [("X", some "Y"), ("C2", some "X")],
    [("Y", .order ⟨["X", "C2"], [⟨"X", "Y", "0"⟩, ⟨"C2", "X", "2"⟩], "2", some "X"⟩),
      ("X", .order ⟨[], [], "0", none⟩)], []⟩

/-- Claim C9 (counterexample): after fromApp processes the report c9m2
(ClOrdID "C2", OrderID "X", OrdStatus "2") in the reachable collector state
c9c1, the ClOrdID resolves to channel "X" while the OrderID resolves
through the stale _ord_map binding to channel "Y" — two different channels
— and the ClOrdID-resolved channel still has status "0", not the report's
OrdStatus "2".  This refutes the claim as stated for every report. -/
theorem c9_counterexample :
    fromApp true c9m1 defaultCollector = .ok c9c1 ∧
    fromApp true c9m2 c9c1 = .ok c9c2 ∧
    c9c2.resolveKey "C2" = some "X" ∧
    c9c2.resolveKey "X" = some "Y" ∧
    c9c2.get "C2" = some (.chan (.order ⟨[], [], "0", none⟩)) ∧
    c9c2.get "X"
      = some (.chan (.order ⟨["X", "C2"], [⟨"X", "Y", "0"⟩, ⟨"C2", "X", "2"⟩], "2", some "X"⟩)) ∧
    c9c2.get "C2" ≠ c9c2.get "X" := by
  refine ⟨rfl, rfl, rfl, rfl, rfl, rfl, ?_⟩
  decide

/-- Claim C9 (amended): after fromApp processes an ExecutionReport ("8") or
OrderCancelReject ("9") whose OrderID is nonempty, does not collide with a
fixed Collector attribute or method name, is not already bound in the
collector's client-order-id map to a different id, and whose channel slot,
if already present, is an order channel, the collector resolves both the
report's ClOrdID and its OrderID to the same order channel, and that
channel's stored status and exante id equal the report's OrdStatus and
OrderID. -/
theorem c9_amended_order_channel_consistency (m : Msg) (c : Collector) (t : Report)
    (h35 : m.getHeaderField 35 = some "8" ∨ m.getHeaderField 35 = some "9")
    (hx : Report.extract m = .ok t)
    (hne : t.OrderID ≠ "")
    (hfix : isFixedAttr t.OrderID = false)
    (hmap : lookupA c.ord_map t.OrderID = none ∨
      lookupA c.ord_map t.OrderID = some (some t.OrderID))
    (hchan : lookupA c.chans t.OrderID = none ∨
      ∃ s, lookupA c.chans t.OrderID = some (.order s)) :
    ∃ c2, fromApp true m c = .ok c2 ∧
      c2.resolveKey t.ClOrdID = some t.OrderID ∧
      c2.resolveKey t.OrderID = some t.OrderID ∧
      ∃ s2, lookupA c2.chans t.OrderID = some (.order s2) ∧
        c2.get t.ClOrdID = some (.chan (.order s2)) ∧
        c2.get t.OrderID = some (.chan (.order s2)) ∧
        s2.status = t.OrdStatus ∧ s2.exante_id = some t.OrderID := by
  obtain ⟨mdl, omap, chs, rejs⟩ := c
  obtain ⟨tCl, tOid, tSt⟩ := t
  simp only at hne hmap hchan
  have htr : truthyS (some tOid) = true := by
    simp only [truthyS, bne_iff_ne, ne_eq]
    exact hne
  have hlkO : lookupA (updA omap tCl (some tOid)) tOid = none ∨
      lookupA (updA omap tCl (some tOid)) tOid = some (some tOid) := by
    by_cases hcl : tCl = tOid
    · right
      rw [hcl]
      exact lookupA_updA_self _ _ _
    · rw [lookupA_updA_ne _ _ _ _ hcl]
      exact hmap
  rcases hrun : fromApp true m ⟨mdl, omap, chs, rejs⟩ with e | c2
  · exfalso
    rcases h35 with h35 | h35 <;> rcases hlkO with hlk | hlk <;>
      rcases hchan with hch | ⟨sPre, hch⟩ <;>
        simp [fromApp, h35, hx, Collector.bound_cl_ord_id, htr, Collector.has, hch, hfix,
          Collector.register, Collector.putReport, Collector.setOnResolved,
          Collector.resolveKey, hlk, lookupA_updA_self, OrderSeq.put] at hrun
  · refine ⟨c2, rfl, ?_⟩
    rcases h35 with h35 | h35 <;> rcases hlkO with hlk | hlk <;>
      rcases hchan with hch | ⟨sPre, hch⟩ <;>
        simp [fromApp, h35, hx, Collector.bound_cl_ord_id, htr, Collector.has, hch, hfix,
          Collector.register, Collector.putReport, Collector.setOnResolved,
          Collector.resolveKey, hlk, lookupA_updA_self, OrderSeq.put] at hrun <;>
      subst hrun <;>
        simp [Collector.resolveKey, Collector.get, lookupA_updA_self, hlk,
          lookupA_updA_ne, OrderSeq.put]

/-- Concrete ExecutionReport for the C9 witness. -/
def c9wm : Msg := ⟨[(35, "8")], [(11, "CL1"), (37, "OID1"), (39, "2")], []⟩

theorem c9_witness :
    ((c9wm.getHeaderField 35 = some "8" ∨ c9wm.getHeaderField 35 = some "9") ∧
      Report.extract c9wm = .ok ⟨"CL1", "OID1", "2"⟩ ∧
      ("OID1" : String) ≠ "" ∧
      isFixedAttr "OID1" = false ∧
      (lookupA defaultCollector.ord_map "OID1" = none ∨
        lookupA defaultCollector.ord_map "OID1" = some (some "OID1")) ∧
      (lookupA defaultCollector.chans "OID1" = none ∨
        ∃ s, lookupA defaultCollector.chans "OID1" = some (.order s))) ∧
    (∃ c2, fromApp true c9wm defaultCollector = .ok c2 ∧
      c2.resolveKey "CL1" = some "OID1" ∧
      c2.resolveKey "OID1" = some "OID1" ∧
      ∃ s2, lookupA c2.chans "OID1" = some (.order s2) ∧
        c2.get "CL1" = some (.chan (.order s2)) ∧
        c2.get "OID1" = some (.chan (.order s2)) ∧
        s2.status = "2" ∧ s2.exante_id = some "OID1") :=
  ⟨⟨Or.inl (by decide), by rfl, by decide, by decide, Or.inl (by rfl), Or.inl (by rfl)⟩,
    c9_amended_order_channel_consistency c9wm defaultCollector ⟨"CL1", "OID1", "2"⟩
      (Or.inl (by decide)) (by rfl) (by decide) (by decide) (Or.inl (by rfl))
      (Or.inl (by rfl))⟩

/- ===== Wire Codec round-trip (claim C4): digit and token lemmas ===== -/

theorem digitChar_toNat (d : Nat) (h : d < 10) : (digitChar d).toNat = 48 + d := by
  interval_cases d <;> decide

theorem digitChar_isDigit (d : Nat) (h : d < 10) : (digitChar d).isDigit = true := by
  interval_cases d <;> decide

theorem digitChar_ne_SOH (d : Nat) (h : d < 10) : digitChar d ≠ SOHc := by
  interval_cases d <;> decide

theorem digitChar_ne_eqchar (d : Nat) (h : d < 10) : digitChar d ≠ '=' := by
  interval_cases d <;> decide

theorem digitsVal_append_one (xs : List Char) (c : Char) :
    digitsVal (xs ++ [c]) = 10 * digitsVal xs + (c.toNat - 48) := by
  simp [digitsVal, List.foldl_append]

theorem toDigitsAux_spec : ∀ fuel n, n < fuel →
    toDigitsAux fuel n ≠ [] ∧
    (∀ c ∈ toDigitsAux fuel n, c.isDigit = true ∧ c ≠ SOHc ∧ c ≠ '=') ∧
    digitsVal (toDigitsAux fuel n) = n := by
  intro fuel
  induction fuel with
  | zero =>
    intro n h
    exact absurd h (Nat.not_lt_zero n)
  | succ f ih =>
    intro n h
    by_cases h10 : n < 10
    · refine ⟨?_, ?_, ?_⟩
      · simp [toDigitsAux, h10]
      · intro c hc
        simp [toDigitsAux, h10] at hc
        subst hc
        exact ⟨digitChar_isDigit n h10, digitChar_ne_SOH n h10, digitChar_ne_eqchar n h10⟩
      · simp [toDigitsAux, h10, digitsVal, digitChar_toNat n h10]
    · have hdiv : n / 10 < f := by omega
      obtain ⟨hne, hdig, hval⟩ := ih (n / 10) hdiv
      have hexp : toDigitsAux (f + 1) n = toDigitsAux f (n / 10) ++ [digitChar (n % 10)] := by
        simp [toDigitsAux, h10]
      have hm : n % 10 < 10 := Nat.mod_lt n (by omega)
      refine ⟨?_, ?_, ?_⟩
      · rw [hexp]
        simp
      · intro c hc
        rw [hexp] at hc
        rcases List.mem_append.mp hc with hc | hc
        · exact hdig c hc
        · simp at hc
          subst hc
          exact ⟨digitChar_isDigit _ hm, digitChar_ne_SOH _ hm, digitChar_ne_eqchar _ hm⟩
      · rw [hexp, digitsVal_append_one, hval, digitChar_toNat _ hm]
        omega

theorem toDigits_spec (n : Nat) :
    toDigits n ≠ [] ∧
    (∀ c ∈ toDigits n, c.isDigit = true ∧ c ≠ SOHc ∧ c ≠ '=') ∧
    digitsVal (toDigits n) = n :=
  toDigitsAux_spec (n + 1) n (Nat.lt_succ_self n)

theorem parseNat_toDigits (n : Nat) : parseNat (toDigits n) = some n := by
  obtain ⟨hne, hdig, hval⟩ := toDigits_spec n
  have hemp : (toDigits n).isEmpty = false := by
    cases htd : toDigits n with
    | nil => exact absurd htd hne
    | cons a as => rfl
  have hall : (toDigits n).all (fun c => c.isDigit) = true := by
    rw [List.all_eq_true]
    intro c hc
    exact (hdig c hc).1
  simp [parseNat, hemp, hall, hval]

theorem splitEq_append (a b : List Char) (h : '=' ∉ a) :
    splitEq (a ++ '=' :: b) = some (a, b) := by
  induction a with
  | nil => simp [splitEq]
  | cons c cs ih =>
    have hc : c ≠ '=' := by
      intro hc
      exact h (hc ▸ List.mem_cons_self c cs)
    have hcs : '=' ∉ cs := fun hm => h (List.mem_cons_of_mem c hm)
    simp [splitEq, hc, ih hcs]

theorem tokenize_append (t rest : List Char) (h : SOHc ∉ t) :
    tokenize (t ++ SOHc :: rest) = (tokenize rest).map (fun ts => t :: ts) := by
  induction t with
  | nil => simp [tokenize]
  | cons c cs ih =>
    have hc : c ≠ SOHc := by
      intro hc
      exact h (hc ▸ List.mem_cons_self c cs)
    have hcs : SOHc ∉ cs := fun hm => h (List.mem_cons_of_mem c hm)
    cases htr : tokenize rest with
    | none => simp [tokenize, hc, ih hcs, htr]
    | some ts => simp [tokenize, hc, ih hcs, htr]

theorem parseField_encodeFieldCore (f : Nat × List Char) :
    parseField (encodeFieldCore f) = some f := by
  have hne : '=' ∉ toDigits f.1 := by
    intro hm
    exact ((toDigits_spec f.1).2.1 '=' hm).2.2 rfl
  simp [parseField, encodeFieldCore, splitEq_append _ _ hne, parseNat_toDigits]

theorem parseFields_map_encode (fs : List (Nat × List Char)) :
    parseFields (fs.map encodeFieldCore) = some fs := by
  induction fs with
  | nil => rfl
  | cons f rest ih =>
    simp [parseFields, parseField_encodeFieldCore, ih]

theorem SOH_not_mem_encodeFieldCore (f : Nat × List Char) (hv : SOHc ∉ f.2) :
    SOHc ∉ encodeFieldCore f := by
  intro hm
  unfold encodeFieldCore at hm
  rcases List.mem_append.mp hm with hm | hm
  · exact ((toDigits_spec f.1).2.1 SOHc hm).2.1 rfl
  · rcases List.mem_cons.mp hm with hm | hm
    · exact absurd hm.symm (by decide)
    · exact hv hm

theorem tokenize_bodyChars (fs : List (Nat × List Char)) (h : ∀ f ∈ fs, SOHc ∉ f.2) :
    tokenize (bodyChars fs) = some (fs.map encodeFieldCore) := by
  induction fs with
  | nil => rfl
  | cons f rest ih =>
    have hf : SOHc ∉ encodeFieldCore f :=
      SOH_not_mem_encodeFieldCore f (h f (List.mem_cons_self f rest))
    have hrest : ∀ g ∈ rest, SOHc ∉ g.2 := fun g hg => h g (List.mem_cons_of_mem f hg)
    have hshape : bodyChars (f :: rest) = encodeFieldCore f ++ SOHc :: bodyChars rest := by
      simp [bodyChars, encodeField, List.append_assoc]
    rw [hshape, tokenize_append _ _ hf, ih hrest]
    rfl

theorem bodyChars_length (fs : List (Nat × List Char)) :
    (bodyChars fs).length = tokensLen (fs.map encodeFieldCore) := by
  induction fs with
  | nil => rfl
  | cons f rest ih =>
    have hshape : bodyChars (f :: rest) = encodeField f ++ bodyChars rest := by
      simp [bodyChars]
    rw [hshape]
    simp [encodeField, tokensLen, List.length_append] at *
    omega

theorem pad3_spec (k : Nat) (h : k < 1000) :
    (pad3 k).length = 3 ∧
    (∀ c ∈ pad3 k, c.isDigit = true) ∧
    digitsVal (pad3 k) = k := by
  have h1 : k / 100 < 10 := by omega
  have h2 : k / 10 % 10 < 10 := by omega
  have h3 : k % 10 < 10 := by omega
  refine ⟨rfl, ?_, ?_⟩
  · intro c hc
    simp [pad3] at hc
    rcases hc with hc | hc | hc <;> subst hc
    · exact digitChar_isDigit _ h1
    · exact digitChar_isDigit _ h2
    · exact digitChar_isDigit _ h3
  · simp [pad3, digitsVal, digitChar_toNat _ h1, digitChar_toNat _ h2, digitChar_toNat _ h3]
    omega

/-- Claim C4: for every valid wire message (SOH-free BeginString and field
values), decoding the encoding yields the message back: the SOH-delimited
tag=value framing with BodyLength(9) over the body and the 3-digit mod-256
checksum round-trips. -/
theorem c4_decode_encode (m : WireMsg) (h : ValidMsg m) : decode (encode m) = some m := by
  obtain ⟨hbs, hfs⟩ := h
  have h256 : checksum (preChars m) < 256 := by
    unfold checksum
    exact Nat.mod_lt _ (by norm_num)
  have hklt : checksum (preChars m) < 1000 := by omega
  have htl : ('1' :: '0' :: '=' :: (pad3 (checksum (preChars m)) ++ [SOHc])).length = 7 := by
    simp [pad3]
  have hlen7 : (encode m).length = (preChars m).length + 7 := by
    rw [encode, List.length_append, htl]
  have hsub : (encode m).length - 7 = (preChars m).length := by omega
  have htake : (encode m).take ((encode m).length - 7) = preChars m := by
    rw [hsub, encode]
    exact List.take_left _ _
  have hdrop : (encode m).drop ((encode m).length - 7)
      = '1' :: '0' :: '=' :: (pad3 (checksum (preChars m)) ++ [SOHc]) := by
    rw [hsub, encode]
    exact List.drop_left _ _
  obtain ⟨hp3len, hp3dig, hp3val⟩ := pad3_spec (checksum (preChars m)) hklt
  have hval : digitsVal [digitChar (checksum (preChars m) / 100),
      digitChar (checksum (preChars m) / 10 % 10), digitChar (checksum (preChars m) % 10)]
      = checksum (preChars m) := hp3val
  have h8 : SOHc ∉ '8' :: '=' :: m.beginString := by
    intro hm
    rcases List.mem_cons.mp hm with hm | hm
    · exact absurd hm (by decide)
    · rcases List.mem_cons.mp hm with hm | hm
      · exact absurd hm (by decide)
      · exact hbs hm
  have h9 : SOHc ∉ '9' :: '=' :: toDigits (bodyChars m.fields).length := by
    intro hm
    rcases List.mem_cons.mp hm with hm | hm
    · exact absurd hm (by decide)
    · rcases List.mem_cons.mp hm with hm | hm
      · exact absurd hm (by decide)
      · exact ((toDigits_spec _).2.1 SOHc hm).2.1 rfl
  have htok : tokenize (preChars m)
      = some (('8' :: '=' :: m.beginString)
          :: ('9' :: '=' :: toDigits (bodyChars m.fields).length)
          :: m.fields.map encodeFieldCore) := by
    unfold preChars
    rw [tokenize_append _ _ h8, tokenize_append _ _ h9, tokenize_bodyChars m.fields hfs]
    rfl
  unfold decode
  rw [if_pos (by omega : 7 ≤ (encode m).length)]
  rw [hdrop, htake]
  simp only [pad3, List.cons_append, List.nil_append]
  rw [if_pos ⟨trivial, trivial, trivial, trivial, hp3dig _ (by simp [pad3]),
    hp3dig _ (by simp [pad3]), hp3dig _ (by simp [pad3]), hval⟩]
  rw [htok]
  dsimp only
  rw [if_pos ⟨rfl, rfl, rfl, rfl⟩]
  rw [parseNat_toDigits]
  dsimp only
  rw [if_pos (bodyChars_length m.fields)]
  rw [parseFields_map_encode]

/-- Concrete wire message for the C4 witness: BeginString FIX.4.4 with a
MsgType(35)=A and MsgSeqNum(34)=7 body. -/
def c4msg : WireMsg :=
  ⟨['F', 'I', 'X', '.', '4', '.', '4'],
    [(35, ['A']), (34, ['7'])]⟩

theorem c4_witness : ValidMsg c4msg ∧ decode (encode c4msg) = some c4msg :=
  ⟨by decide, c4_decode_encode c4msg (by decide)⟩
